import Mathlib

/-!
Formal model of the Akita Emergency Response Plugin (AERP) core logic,
shallowly embedded from `aerp/plugin.py` and `aerp/utils.py`.

Python dictionaries are modelled as association lists (`List (κ × ν)`);
every dictionary reachable in the running program has pairwise-distinct
keys, which appears below as explicit `Nodup` hypotheses where a proof
needs it.  Timestamps and coordinates (Python floats) are modelled as
rationals, node numbers as integers, session ids as strings.  Mutable
Python objects whose identity matters (the configuration dictionary and
the gps dictionaries stored inside tracked-emergency records) are
modelled as `PyRef` values carrying an object identifier next to the
payload, so that aliasing between the status snapshot and the internal
state is expressible.
-/

/-- Keys of an association-list dictionary, in insertion order
(Python `dict` keys view). -/
def keysD {α β : Type} (d : List (α × β)) : List α := d.map Prod.fst

/-- Python `d.get(k)` / `d[k]`: value of the first (in a real `dict`, only)
entry for `k`. -/
def lookupD {α β : Type} [DecidableEq α] (k : α) : List (α × β) → Option β
  | [] => none
  | (k', v) :: t => if k' = k then some v else lookupD k t

/-- Python `d[k] = v`: replace the entry for `k` in place if present,
otherwise append a new entry at the end. -/
def setD {α β : Type} [DecidableEq α] (k : α) (v : β) : List (α × β) → List (α × β)
  | [] => [(k, v)]
  | (k', v') :: t => if k' = k then (k, v) :: t else (k', v') :: setD k v t

/-- Python `del d[k]`: remove the entry for `k` (the first one; unique in a
real `dict`). -/
def eraseD {α β : Type} [DecidableEq α] (k : α) : List (α × β) → List (α × β)
  | [] => []
  | (k', v') :: t => if k' = k then t else (k', v') :: eraseD k t

@[simp] theorem keysD_nil {α β : Type} : keysD ([] : List (α × β)) = [] := rfl

@[simp] theorem keysD_cons {α β : Type} (a : α) (b : β) (t : List (α × β)) :
    keysD ((a, b) :: t) = a :: keysD t := rfl

theorem lookupD_eq_none {α β : Type} [DecidableEq α] (k : α) (d : List (α × β)) :
    lookupD k d = none ↔ k ∉ keysD d := by
  induction d with
  | nil => simp [lookupD]
  | cons p t ih =>
    obtain ⟨k', v'⟩ := p
    by_cases hk : k' = k
    · subst hk
      simp [lookupD]
    · have hk2 : ¬k = k' := fun h => hk h.symm
      simp [lookupD, hk, ih, hk2]

theorem lookupD_isSome_of_mem {α β : Type} [DecidableEq α] {k : α} {d : List (α × β)}
    (h : k ∈ keysD d) : ∃ v, lookupD k d = some v := by
  induction d with
  | nil => simp at h
  | cons p t ih =>
    obtain ⟨k', v'⟩ := p
    by_cases hk : k' = k
    · exact ⟨v', by simp [lookupD, hk]⟩
    · have ht : k ∈ keysD t := by
        rcases List.mem_cons.mp (by simpa using h) with h1 | h1
        · exact absurd h1.symm hk
        · exact h1
      obtain ⟨v, hv⟩ := ih ht
      exact ⟨v, by simp [lookupD, hk, hv]⟩

theorem mem_of_lookupD_eq_some {α β : Type} [DecidableEq α] {k : α} {v : β}
    {d : List (α × β)} (h : lookupD k d = some v) : (k, v) ∈ d := by
  induction d with
  | nil => simp [lookupD] at h
  | cons p t ih =>
    obtain ⟨k', v'⟩ := p
    by_cases hk : k' = k
    · subst hk
      simp [lookupD] at h
      simp [h]
    · simp [lookupD, hk] at h
      exact List.mem_cons_of_mem _ (ih h)

theorem lookupD_setD_self {α β : Type} [DecidableEq α] (k : α) (v : β)
    (d : List (α × β)) : lookupD k (setD k v d) = some v := by
  induction d with
  | nil => simp [setD, lookupD]
  | cons p t ih =>
    obtain ⟨k', v'⟩ := p
    by_cases hk : k' = k <;> simp [setD, lookupD, hk, ih]

theorem mem_keysD_setD {α β : Type} [DecidableEq α] (a k : α) (v : β)
    (d : List (α × β)) : a ∈ keysD (setD k v d) ↔ a = k ∨ a ∈ keysD d := by
  induction d with
  | nil => simp [setD]
  | cons p t ih =>
    obtain ⟨k', v'⟩ := p
    by_cases hk : k' = k
    · subst hk
      simp [setD]
    · simp [setD, hk] at ih ⊢
      tauto

theorem keysD_setD_of_mem {α β : Type} [DecidableEq α] {k : α} (v : β)
    {d : List (α × β)} (h : k ∈ keysD d) : keysD (setD k v d) = keysD d := by
  induction d with
  | nil => simp at h
  | cons p t ih =>
    obtain ⟨k', v'⟩ := p
    by_cases hk : k' = k
    · simp [setD, hk]
    · have ht : k ∈ keysD t := by
        rcases List.mem_cons.mp (by simpa using h) with h1 | h1
        · exact absurd h1.symm hk
        · exact h1
      simp [setD, hk, ih ht]

theorem nodup_keysD_setD {α β : Type} [DecidableEq α] (k : α) (v : β)
    {d : List (α × β)} (h : (keysD d).Nodup) : (keysD (setD k v d)).Nodup := by
  induction d with
  | nil => simp [setD]
  | cons p t ih =>
    obtain ⟨k', v'⟩ := p
    rw [keysD_cons, List.nodup_cons] at h
    by_cases hk : k' = k
    · subst hk
      simpa [setD, List.nodup_cons] using h
    · have h2 := ih h.2
      have hmem : k' ∉ keysD (setD k v t) := by
        intro hc
        rcases (mem_keysD_setD k' k v t).mp hc with h3 | h3
        · exact hk h3
        · exact h.1 h3
      simp [setD, hk, List.nodup_cons, hmem, h2]

theorem mem_setD {α β : Type} [DecidableEq α] {q : α × β} {k : α} {v : β}
    {d : List (α × β)} (h : q ∈ setD k v d) : q = (k, v) ∨ q ∈ d := by
  induction d with
  | nil =>
    simp [setD] at h
    simp [h]
  | cons p t ih =>
    obtain ⟨k', v'⟩ := p
    by_cases hk : k' = k
    · simp [setD, hk] at h
      tauto
    · simp [setD, hk] at h
      rcases h with h | h
      · simp [h]
      · rcases ih h with h1 | h1 <;> simp [h1]

theorem filter_eq_nil_of_not_mem_keysD {α β : Type} [DecidableEq α] {k : α}
    {d : List (α × β)} (h : k ∉ keysD d) :
    d.filter (fun q => decide (q.1 = k)) = [] := by
  induction d with
  | nil => simp
  | cons p t ih =>
    obtain ⟨k', v'⟩ := p
    rw [keysD_cons] at h
    simp only [List.mem_cons, not_or] at h
    have hk : ¬k' = k := fun hc => h.1 hc.symm
    simp only [List.filter_cons, decide_eq_true_eq]
    rw [if_neg hk]
    exact ih h.2

theorem filter_setD_self {α β : Type} [DecidableEq α] (k : α) (v : β)
    {d : List (α × β)} (h : (keysD d).Nodup) :
    (setD k v d).filter (fun q => decide (q.1 = k)) = [(k, v)] := by
  induction d with
  | nil => simp [setD]
  | cons p t ih =>
    obtain ⟨k', v'⟩ := p
    rw [keysD_cons, List.nodup_cons] at h
    by_cases hk : k' = k
    · subst hk
      simp [setD, List.filter_cons, filter_eq_nil_of_not_mem_keysD h.1]
    · simp [setD, hk, List.filter_cons, ih h.2]

theorem not_mem_keysD_eraseD {α β : Type} [DecidableEq α] (k : α)
    {d : List (α × β)} (h : (keysD d).Nodup) : k ∉ keysD (eraseD k d) := by
  induction d with
  | nil => simp [eraseD]
  | cons p t ih =>
    obtain ⟨k', v'⟩ := p
    rw [keysD_cons, List.nodup_cons] at h
    by_cases hk : k' = k
    · subst hk
      simpa [eraseD] using h.1
    · have h2 := ih h.2
      simp [eraseD, hk]
      exact ⟨fun hc => hk hc.symm, h2⟩

theorem lookupD_eraseD_ne {α β : Type} [DecidableEq α] {p k : α} (hpk : p ≠ k)
    (d : List (α × β)) : lookupD p (eraseD k d) = lookupD p d := by
  induction d with
  | nil => simp [eraseD]
  | cons q t ih =>
    obtain ⟨k', v'⟩ := q
    by_cases hk : k' = k
    · subst hk
      have hkp : ¬k' = p := fun hc => hpk hc.symm
      simp [eraseD, lookupD, hkp]
    · by_cases hkp : k' = p
      · subst hkp
        simp [eraseD, lookupD, hk]
      · simp [eraseD, lookupD, hk, hkp, ih]

theorem eraseD_of_not_mem {α β : Type} [DecidableEq α] {k : α}
    {d : List (α × β)} (h : k ∉ keysD d) : eraseD k d = d := by
  induction d with
  | nil => simp [eraseD]
  | cons p t ih =>
    obtain ⟨k', v'⟩ := p
    rw [keysD_cons] at h
    simp only [List.mem_cons, not_or] at h
    have hk : ¬k' = k := fun hc => h.1 hc.symm
    simp [eraseD, hk, ih h.2]

/-! Data model, from `aerp/constants.py` and the attributes set up in
`AERP.__init__` (`aerp/plugin.py`). -/

/-- Message-type string `MSG_TYPE_EMERGENCY` from `aerp/constants.py`. -/
def MSG_TYPE_EMERGENCY : String := "AERP_EMERGENCY"

/-- Message-type string `MSG_TYPE_ACK` from `aerp/constants.py`. -/
def MSG_TYPE_ACK : String := "AERP_ACK"

/-- Message-type string `MSG_TYPE_CLEAR` from `aerp/constants.py`. -/
def MSG_TYPE_CLEAR : String := "AERP_CLEAR"

/-- `EARTH_RADIUS_METERS` from `aerp/constants.py`. -/
def EARTH_RADIUS_METERS : ℚ := 6371000

/-- A mutable Python object: a payload `val` together with an object
identifier `ref` (its identity under `is` / in-place mutation). -/
structure PyRef (α : Type) where
  ref : Nat
  val : α
deriving DecidableEq

/-- A `gps` sub-dictionary as it appears in position payloads and AERP
emergency payloads (all fields optional, numeric fields only: a field that
is present but non-numeric is treated at the use sites exactly like the
numeric cases that fail `float()` conversion, i.e. skipped). -/
structure GpsData where
  latitudeI : Option ℤ
  longitudeI : Option ℤ
  latitude : Option ℚ
  longitude : Option ℚ
  altitude : Option ℚ
  gpsTime : Option ℚ
deriving DecidableEq

/-- A decoded JSON-object payload.  `msgType` models the `"type"` key
(`type` is reserved in Lean); the remaining fields model the keys read by
the AERP handlers and by `get_location_from_packet`.  Keys that are absent
in the Python dict are `none`. -/
structure MsgDict where
  msgType : Option String
  emergency_id : Option String
  timestamp : Option ℚ
  message : Option String
  gps : Option (PyRef GpsData)
  battery : Option ℤ
  latitudeI : Option ℤ
  longitudeI : Option ℤ
  latitude : Option ℚ
  longitude : Option ℚ
deriving DecidableEq

/-- A Meshtastic `portNum`, which arrives either as an int or as a string
such as `"POSITION_APP"`. -/
inductive PortVal
  | int (n : ℤ)
  | str (s : String)
deriving DecidableEq

/-- The `payload` field of a decoded packet: raw bytes (whose JSON parse
outcome is part of the input: `some m` iff `json.loads` on the UTF-8 text
succeeds with object `m`), an already-decoded dict, or some other type. -/
inductive Payload
  | bytes (jsonParse : Option MsgDict)
  | dict (d : MsgDict)
  | other
deriving DecidableEq

/-- The `decoded` part of a packet. -/
structure DecodedPart where
  portNum : Option PortVal
  payload : Option Payload
deriving DecidableEq

/-- An incoming packet as handed to `AERP.handle_incoming`.  `fromNum` /
`toNum` model `packet.get('from')` / `packet.get('to')` (absent key =
`none`). -/
structure Packet where
  decoded : Option DecodedPart
  fromNum : Option ℤ
  toNum : Option ℤ
deriving DecidableEq

/-- Validated configuration values (`ConfigManager.config`), keyed in the
source by `CONFIG_INTERVAL`, `CONFIG_PORT`, `CONFIG_MESSAGE`,
`CONFIG_RADIUS`, `CONFIG_ACK_TIMEOUT`. -/
structure ConfigData where
  interval : ℚ
  emergency_port : ℤ
  emergency_message : String
  alert_radius : ℚ
  ack_timeout : ℚ
deriving DecidableEq

/-- One record of `AERP.active_emergency_info` (tracked emergencies
received from other nodes), as written by `_handle_emergency_message`. -/
structure EmergencyInfo where
  message_id : Option String
  timestamp : ℚ
  message : String
  gps : Option (PyRef GpsData)
  battery : Option ℤ
  last_seen : ℚ
deriving DecidableEq

/-- The shared mutable state of one `AERP` instance (the Session Store).
Dictionary keys follow the Python code: acknowledgement tables are keyed
by session-id string, and their inner tables — like the tracked-emergency
table — are keyed by the packet's `from` field, which can be absent
(`none`) since the code never validates it.  `config` is the
`ConfigManager.config` dict object (with identity); `my_position` is the
(lat, lon) that `check_alert_radius` extracts from
`interface.myInfo.position`, `none` when unavailable. -/
structure AERPState where
  emergency_active : Bool
  last_emergency_id : Option String
  last_sent_emergency_id : Option String
  acknowledgements : List (String × List (Option ℤ × ℚ))
  active_emergency_info : List (Option ℤ × EmergencyInfo)
  my_node_num : Option ℤ
  my_node_id : String
  config : PyRef ConfigData
  my_position : Option (ℚ × ℚ)
deriving DecidableEq

/-- Observable side channel of the handlers: datagrams sent and proximity
alerts raised. -/
inductive Effect
  | sendAck (dest : Option ℤ) (emergency_id : String)
  | proximityAlert (node : Option ℤ)
deriving DecidableEq

/-- Python truthiness of an optional integer (`if not self.my_node_num`):
`None` and `0` are falsy. -/
def truthyOptInt : Option ℤ → Bool
  | none => false
  | some n => decide (n ≠ 0)

/-- Python truthiness of an optional string (`if original_emergency_id`):
`None` and `""` are falsy. -/
def truthyOptStr : Option String → Bool
  | none => false
  | some s => decide (s ≠ "")

/-- Zero-padded lowercase hex of width `width` (Python `format(n, '08x')`
for a natural number). -/
def hexPad (width : ℕ) (n : ℕ) : String :=
  let ds := Nat.toDigits 16 n
  String.mk (List.replicate (width - ds.length) '0' ++ ds)

/-- `format_node_id` from `aerp/utils.py`: `None` maps to `"Unknown"`, an
integer to `f"!{n:08x}"` (Python pads negative numbers to total width 8
including the sign). -/
def format_node_id : Option ℤ → String
  | none => "Unknown"
  | some n => if n < 0 then "!-" ++ hexPad 7 n.natAbs else "!" ++ hexPad 8 n.natAbs

/-- Human-readable timestamp: models
`datetime.fromtimestamp(ts).strftime('%Y-%m-%d %H:%M:%S')` in
`get_status`.  The exact text is irrelevant to every claim (it is a fresh
immutable string); the model prints the raw value. -/
def formatTimestamp (t : ℚ) : String := toString t

/-! Handlers, from `aerp/plugin.py`.  Each is a state transformer; `now`
is the value `time.time()` would return during the call. -/

/-- Outcome of `AERP._update_node_info`: the interface either yields a
node number (`some n`: the method stores it and returns `True`) or does
not (`none`: the method returns `False`; on the no-info path the state is
left as it was). -/
def update_node_info (outcome : Option ℤ) (s : AERPState) : Bool × AERPState :=
  match outcome with
  | some n =>
    (true, { s with my_node_num := some n, my_node_id := format_node_id (some n) })
  | none => (false, s)

/-- `AERP.start_emergency`.  `fresh_id` is the `str(uuid.uuid4())` drawn
during the call, `updateOutcome` the result `_update_node_info` would
produce if invoked; the broadcast-thread spawn has no effect on the
Session Store and is not modelled.  Returns the boolean result together
with the new state. -/
def start_emergency (fresh_id : String) (updateOutcome : Option ℤ)
    (s : AERPState) : Bool × AERPState :=
  if s.emergency_active then (false, s)
  else
    let (ok, s1) :=
      if truthyOptInt s.my_node_num then (true, s)
      else update_node_info updateOutcome s
    if !ok then (false, s1)
    else
      (true,
        { s1 with
          last_emergency_id := some fresh_id
          emergency_active := true
          acknowledgements := setD fresh_id [] s1.acknowledgements
          last_sent_emergency_id := some fresh_id })

/-- `AERP.send_acknowledgement`: returns the datagrams actually handed to
`interface.sendData` (empty when one of the three guards makes the method
return early). -/
def send_acknowledgement (s : AERPState) (destination_node_num : Option ℤ)
    (emergency_id : String) : List Effect :=
  if !truthyOptInt s.my_node_num then []
  else if !truthyOptInt destination_node_num then []
  else if emergency_id = "" then []
  else [Effect.sendAck destination_node_num emergency_id]

/-- `AERP._handle_emergency_message`: unconditionally overwrites the
tracked record for the sender, then acknowledges when the payload carries
a (truthy) `emergency_id`. -/
def handle_emergency_message (payload : MsgDict) (from_node_num : Option ℤ)
    (now : ℚ) (s : AERPState) : AERPState × List Effect :=
  let emergency_id := payload.emergency_id
  let info : EmergencyInfo :=
    { message_id := emergency_id
      timestamp := payload.timestamp.getD now
      message := payload.message.getD "[No message text]"
      gps := payload.gps
      battery := payload.battery
      last_seen := now }
  let s1 :=
    { s with active_emergency_info := setD from_node_num info s.active_emergency_info }
  match emergency_id with
  | some e => if e ≠ "" then (s1, send_acknowledgement s1 from_node_num e) else (s1, [])
  | none => (s1, [])

/-- `AERP._handle_ack_message`: when the payload's `emergency_id` is
truthy and is a key of the acknowledgement table, store the sender's
claimed send time (`payload.get("timestamp", time.time())`) under that
session id and sender; otherwise drop. -/
def handle_ack_message (payload : MsgDict) (from_node_num : Option ℤ)
    (now : ℚ) (s : AERPState) : AERPState :=
  let ack_timestamp := payload.timestamp.getD now
  match payload.emergency_id with
  | some e =>
    if e ≠ "" then
      match lookupD e s.acknowledgements with
      | some nodes =>
        { s with
          acknowledgements :=
            setD e (setD from_node_num ack_timestamp nodes) s.acknowledgements }
      | none => s
    else s
  | none => s

/-- `AERP._handle_clear_message`: delete the tracked record for the
sender if one exists (regardless of the session id carried by the clear —
the id comparison in the source only selects a log message); otherwise do
nothing. -/
def handle_clear_message (payload : MsgDict) (from_node_num : Option ℤ)
    (s : AERPState) : AERPState :=
  if from_node_num ∈ keysD s.active_emergency_info then
    { s with active_emergency_info := eraseD from_node_num s.active_emergency_info }
  else s

/-! Claims C1 – C4: session start, ack handling, clear handling. -/

/-- C1: if a session is already active (`emergency_active` is true),
`start_emergency` returns failure (`False`) and leaves the whole state —
in particular `last_emergency_id`, the acknowledgement table and the
active flag — unchanged. -/
theorem start_emergency_already_active (fresh_id : String) (upd : Option ℤ)
    (s : AERPState) (h : s.emergency_active = true) :
    start_emergency fresh_id upd s = (false, s) := by
  simp [start_emergency, h]

/-- C2: an ACK whose session id is missing (or empty, hence falsy) or not
a key of the acknowledgement table is dropped: the state, and with it the
acknowledgement table, is unchanged, so no session key and no peer entry
is created. -/
theorem handle_ack_unknown_session_dropped (payload : MsgDict)
    (from_node_num : Option ℤ) (now : ℚ) (s : AERPState)
    (h : ∀ e, payload.emergency_id = some e → e ∉ keysD s.acknowledgements) :
    handle_ack_message payload from_node_num now s = s := by
  unfold handle_ack_message
  cases hid : payload.emergency_id with
  | none => rfl
  | some e =>
    by_cases he : e = ""
    · simp [he]
    · have hnone := (lookupD_eq_none e s.acknowledgements).mpr (h e hid)
      simp [he, hnone]

/-- C3: handling an ACK from peer `p` carrying timestamp `ts` for a
tracked session `e` leaves exactly one entry for `(e, p)` in the
acknowledgement table and that entry holds `ts` — the sender's claimed
send time, not the receive time `now`.  The remaining conjuncts
(key-nodup preservation and `e` still tracked) close the induction for an
arbitrary sequence of such ACKs: the property re-establishes its own
hypotheses after each message. -/
theorem handle_ack_refresh_single_entry (e : String) (p : Option ℤ)
    (ts now : ℚ) (payload : MsgDict) (s : AERPState)
    (hkeys : (keysD s.acknowledgements).Nodup)
    (hinner : ∀ q ∈ s.acknowledgements, (keysD q.2).Nodup)
    (he : e ≠ "")
    (hid : payload.emergency_id = some e)
    (hts : payload.timestamp = some ts)
    (hmem : e ∈ keysD s.acknowledgements) :
    (∃ nodes,
        lookupD e (handle_ack_message payload p now s).acknowledgements = some nodes ∧
        nodes.filter (fun q => decide (q.1 = p)) = [(p, ts)]) ∧
    (keysD (handle_ack_message payload p now s).acknowledgements).Nodup ∧
    (∀ q ∈ (handle_ack_message payload p now s).acknowledgements, (keysD q.2).Nodup) ∧
    e ∈ keysD (handle_ack_message payload p now s).acknowledgements := by
  obtain ⟨nodes0, hn0⟩ := lookupD_isSome_of_mem hmem
  have hstate : handle_ack_message payload p now s =
      { s with acknowledgements := setD e (setD p ts nodes0) s.acknowledgements } := by
    unfold handle_ack_message
    simp [hid, hts, he, hn0]
  have hn0mem : (e, nodes0) ∈ s.acknowledgements := mem_of_lookupD_eq_some hn0
  have hnodup0 : (keysD nodes0).Nodup := hinner _ hn0mem
  refine ⟨⟨setD p ts nodes0, ?_, ?_⟩, ?_, ?_, ?_⟩
  · rw [hstate]
    simpa using lookupD_setD_self e _ s.acknowledgements
  · exact filter_setD_self p ts hnodup0
  · rw [hstate]
    simpa using nodup_keysD_setD e _ hkeys
  · rw [hstate]
    intro q hq
    rcases mem_setD (by simpa using hq) with h1 | h1
    · rw [h1]
      exact nodup_keysD_setD p ts hnodup0
    · exact hinner _ h1
  · rw [hstate]
    simpa using (mem_keysD_setD e e _ s.acknowledgements).mpr (Or.inl rfl)

/-- C4: a CLEAR from peer `x` removes the tracked-emergency record for
`x` whenever one exists — the payload (hence its session id) is
universally quantified, so the record goes even when the clear's id
differs from the stored one — never touches the acknowledgement table,
leaves every other peer's record alone, and is a no-op when no record for
`x` exists. -/
theorem handle_clear_removes_tracked_record (payload : MsgDict) (x : Option ℤ)
    (s : AERPState) (hnd : (keysD s.active_emergency_info).Nodup) :
    (handle_clear_message payload x s).acknowledgements = s.acknowledgements ∧
    x ∉ keysD (handle_clear_message payload x s).active_emergency_info ∧
    (x ∈ keysD s.active_emergency_info →
      (handle_clear_message payload x s).active_emergency_info =
        eraseD x s.active_emergency_info) ∧
    (∀ p, p ≠ x →
      lookupD p (handle_clear_message payload x s).active_emergency_info =
        lookupD p s.active_emergency_info) ∧
    (x ∉ keysD s.active_emergency_info → handle_clear_message payload x s = s) := by
  by_cases hx : x ∈ keysD s.active_emergency_info
  · have hcm : handle_clear_message payload x s =
        { s with active_emergency_info := eraseD x s.active_emergency_info } := by
      simp [handle_clear_message, hx]
    refine ⟨by rw [hcm], ?_, ?_, ?_, ?_⟩
    · rw [hcm]
      simpa using not_mem_keysD_eraseD x hnd
    · intro _
      rw [hcm]
    · intro p hp
      rw [hcm]
      simpa using lookupD_eraseD_ne hp _
    · intro hc
      exact absurd hx hc
  · have hcm : handle_clear_message payload x s = s := by
      simp [handle_clear_message, hx]
    exact ⟨by rw [hcm], by rw [hcm]; exact hx, fun hc => absurd hc hx,
      fun p _ => by rw [hcm], fun _ => hcm⟩

/-! Concrete sample data for the witnesses. -/

/-- Sample validated configuration (the defaults from `aerp/constants.py`). -/
def sampleConfig : ConfigData :=
  { interval := 60
    emergency_port := 256
    emergency_message := "SOS! Emergency situation detected."
    alert_radius := 1000
    ack_timeout := 300 }

/-- Sample tracked-emergency record (session id `sess-b`). -/
def sampleInfo : EmergencyInfo :=
  { message_id := some "sess-b"
    timestamp := 10
    message := "help"
    gps := none
    battery := some 80
    last_seen := 12 }

/-- Sample plugin state: an active session `sess-a` with one ack from
node 7, and one tracked emergency from node 9. -/
def sampleState : AERPState :=
  { emergency_active := true
    last_emergency_id := some "sess-a"
    last_sent_emergency_id := some "sess-a"
    acknowledgements := [("sess-a", [(some 7, 5)])]
    active_emergency_info := [(some 9, sampleInfo)]
    my_node_num := some 1
    my_node_id := "!00000001"
    config := ⟨0, sampleConfig⟩
    my_position := some (0, 0) }

/-- Sample ACK payload for the tracked session `sess-a`, carrying send
time 9. -/
def ackPayload : MsgDict :=
  { msgType := some MSG_TYPE_ACK
    emergency_id := some "sess-a"
    timestamp := some 9
    message := none
    gps := none
    battery := none
    latitudeI := none
    longitudeI := none
    latitude := none
    longitude := none }

/-- Sample ACK payload bearing a session id that is not tracked. -/
def unknownAckPayload : MsgDict := { ackPayload with emergency_id := some "sess-z" }

/-- Sample CLEAR payload whose session id (`sess-other`) differs from the
tracked record's id (`sess-b`). -/
def clearPayload : MsgDict :=
  { msgType := some MSG_TYPE_CLEAR
    emergency_id := some "sess-other"
    timestamp := some 20
    message := none
    gps := none
    battery := none
    latitudeI := none
    longitudeI := none
    latitude := none
    longitude := none }

/-- Witness for C1 at a concrete active state. -/
theorem start_emergency_already_active_witness :
    sampleState.emergency_active = true ∧
    start_emergency "sess-new" none sampleState = (false, sampleState) :=
  ⟨rfl, start_emergency_already_active "sess-new" none sampleState rfl⟩

/-- Witness for C2 at a concrete state and untracked session id. -/
theorem handle_ack_unknown_session_dropped_witness :
    (∀ e, unknownAckPayload.emergency_id = some e →
      e ∉ keysD sampleState.acknowledgements) ∧
    handle_ack_message unknownAckPayload (some 7) 100 sampleState = sampleState := by
  have h : ∀ e, unknownAckPayload.emergency_id = some e →
      e ∉ keysD sampleState.acknowledgements := by
    intro e he
    have : e = "sess-z" := by
      simpa [unknownAckPayload, ackPayload] using he.symm
    rw [this]
    decide
  exact ⟨h, handle_ack_unknown_session_dropped _ _ _ _ h⟩

/-- Witness for C3: a duplicate ACK from node 7 for `sess-a` refreshes the
single entry to the carried timestamp 9 (receive time is 100). -/
theorem handle_ack_refresh_single_entry_witness :
    (∃ nodes,
        lookupD "sess-a" (handle_ack_message ackPayload (some 7) 100 sampleState).acknowledgements = some nodes ∧
        nodes.filter (fun q => decide (q.1 = (some 7 : Option ℤ))) = [((some 7 : Option ℤ), (9 : ℚ))]) ∧
    (keysD (handle_ack_message ackPayload (some 7) 100 sampleState).acknowledgements).Nodup ∧
    (∀ q ∈ (handle_ack_message ackPayload (some 7) 100 sampleState).acknowledgements, (keysD q.2).Nodup) ∧
    "sess-a" ∈ keysD (handle_ack_message ackPayload (some 7) 100 sampleState).acknowledgements :=
  handle_ack_refresh_single_entry "sess-a" (some 7) 9 100 ackPayload sampleState
    (by decide) (by decide) (by decide) rfl rfl (by decide)

/-- Witness for C4: a CLEAR from node 9 with a non-matching session id
still removes node 9's tracked record and leaves the ack table alone. -/
theorem handle_clear_removes_tracked_record_witness :
    (keysD sampleState.active_emergency_info).Nodup ∧
    ((handle_clear_message clearPayload (some 9) sampleState).acknowledgements = sampleState.acknowledgements ∧
     (some 9 : Option ℤ) ∉ keysD (handle_clear_message clearPayload (some 9) sampleState).active_emergency_info ∧
     ((some 9 : Option ℤ) ∈ keysD sampleState.active_emergency_info →
       (handle_clear_message clearPayload (some 9) sampleState).active_emergency_info =
         eraseD (some 9) sampleState.active_emergency_info) ∧
     (∀ p, p ≠ (some 9 : Option ℤ) →
       lookupD p (handle_clear_message clearPayload (some 9) sampleState).active_emergency_info =
         lookupD p sampleState.active_emergency_info) ∧
     ((some 9 : Option ℤ) ∉ keysD sampleState.active_emergency_info →
       handle_clear_message clearPayload (some 9) sampleState = sampleState)) :=
  ⟨by decide, handle_clear_removes_tracked_record clearPayload (some 9) sampleState (by decide)⟩

/-! Claim C5: the acknowledgement-expiry part of one Janitor sweep
(`AERP._background_cleanup`).  The source collects, per session id, the
peer entries with `current_time - timestamp > ack_timeout` into
`acks_to_remove` and deletes exactly those from the inner dict; the
session-id key itself is never deleted (that pruning is commented out).
With unique keys the net effect on each inner dict is the filter below. -/

/-- One sweep of the stale-acknowledgement cleaning loop of
`AERP._background_cleanup` applied to the acknowledgement table. -/
def background_cleanup_acks (current_time ack_timeout : ℚ)
    (acks : List (String × List (Option ℤ × ℚ))) :
    List (String × List (Option ℤ × ℚ)) :=
  acks.map (fun p => (p.1, p.2.filter (fun q => !decide (current_time - q.2 > ack_timeout))))

theorem keysD_map_values {α β γ : Type} (f : β → γ) (d : List (α × β)) :
    keysD (d.map (fun p => (p.1, f p.2))) = keysD d := by
  induction d with
  | nil => rfl
  | cons p t ih =>
    obtain ⟨a, b⟩ := p
    simpa using ih

theorem lookupD_map_values {α β γ : Type} [DecidableEq α] (f : β → γ) (k : α)
    (d : List (α × β)) :
    lookupD k (d.map (fun p => (p.1, f p.2))) = (lookupD k d).map f := by
  induction d with
  | nil => rfl
  | cons p t ih =>
    obtain ⟨a, b⟩ := p
    by_cases hk : a = k <;> simp [lookupD, hk, ih]

/-- C5: one Janitor sweep at `current_time` keeps exactly the peer entries
whose age is at most `ack_timeout` (an entry is removed iff its age
`current_time - ts` exceeds the timeout), and never removes a session-id
key — even one whose peer-entry set is or becomes empty. -/
theorem background_cleanup_acks_expiry (current_time ack_timeout : ℚ)
    (acks : List (String × List (Option ℤ × ℚ))) :
    keysD (background_cleanup_acks current_time ack_timeout acks) = keysD acks ∧
    ∀ e nodes, lookupD e acks = some nodes →
      lookupD e (background_cleanup_acks current_time ack_timeout acks) =
        some (nodes.filter (fun q => !decide (current_time - q.2 > ack_timeout))) ∧
      ∀ p ts,
        ((p, ts) ∈ nodes.filter (fun q => !decide (current_time - q.2 > ack_timeout)) ↔
          ((p, ts) ∈ nodes ∧ current_time - ts ≤ ack_timeout)) := by
  constructor
  · exact keysD_map_values _ acks
  · intro e nodes h
    constructor
    · unfold background_cleanup_acks
      rw [lookupD_map_values, h]
      rfl
    · intro p ts
      simp [List.mem_filter, not_lt]

/-- Sample acknowledgement table for the C5 witness: at time 100 with
timeout 30, node 7's ack (age 5) survives, node 8's ack (age 50) is
removed, and the empty session `sess-old` keeps its key. -/
def sampleAcksC5 : List (String × List (Option ℤ × ℚ)) :=
  [("sess-a", [(some 7, 95), (some 8, 50)]), ("sess-old", [])]

/-- Witness for C5 at a concrete table, sweep time and timeout. -/
theorem background_cleanup_acks_expiry_witness :
    keysD (background_cleanup_acks 100 30 sampleAcksC5) = keysD sampleAcksC5 ∧
    (lookupD "sess-a" (background_cleanup_acks 100 30 sampleAcksC5) =
      some ([((some 7 : Option ℤ), (95 : ℚ)), (some 8, 50)].filter
        (fun q => !decide ((100 : ℚ) - q.2 > 30))) ∧
     ∀ p ts,
       ((p, ts) ∈ [((some 7 : Option ℤ), (95 : ℚ)), (some 8, 50)].filter
           (fun q => !decide ((100 : ℚ) - q.2 > 30)) ↔
         ((p, ts) ∈ [((some 7 : Option ℤ), (95 : ℚ)), (some 8, 50)] ∧
           (100 : ℚ) - ts ≤ 30))) :=
  ⟨(background_cleanup_acks_expiry 100 30 sampleAcksC5).1,
   (background_cleanup_acks_expiry 100 30 sampleAcksC5).2 "sess-a"
     [(some 7, 95), (some 8, 50)] rfl⟩

/-! Claim C8: `calculate_distance` (`aerp/utils.py`) and the proximity
check `AERP.check_alert_radius`.  A coordinate argument is `missing`
(Python `None`), a number, or a value of non-numeric type (fails the
`isinstance(_, (int, float))` check).  The Haversine branch is carried
over the reals; no claim evaluates it, only the validation guards. -/

/-- One coordinate argument of `calculate_distance`. -/
inductive Coord
  | missing
  | num (q : ℚ)
  | nonNumeric
deriving DecidableEq

/-- Result of `calculate_distance`: `float('inf')` or a finite distance in
meters. -/
inductive DistResult
  | inf
  | fin (d : ℝ)

/-- Python `math.radians`. -/
noncomputable def radiansR (q : ℚ) : ℝ := (q : ℝ) * Real.pi / 180

open scoped Classical in
/-- Python `math.atan2 y x` (per-quadrant arctangent). -/
noncomputable def atan2R (y x : ℝ) : ℝ :=
  if 0 < x then Real.arctan (y / x)
  else if x < 0 then
    (if 0 ≤ y then Real.arctan (y / x) + Real.pi else Real.arctan (y / x) - Real.pi)
  else if 0 < y then Real.pi / 2
  else if y < 0 then -(Real.pi / 2)
  else 0

/-- The Haversine body of `calculate_distance` (the branch reached when
all four coordinates are valid numbers). -/
noncomputable def haversine (lat1 lon1 lat2 lon2 : ℚ) : ℝ :=
  let rad_lat1 := radiansR lat1
  let rad_lon1 := radiansR lon1
  let rad_lat2 := radiansR lat2
  let rad_lon2 := radiansR lon2
  let dlon := rad_lon2 - rad_lon1
  let dlat := rad_lat2 - rad_lat1
  let a := Real.sin (dlat / 2) ^ 2 +
    Real.cos rad_lat1 * Real.cos rad_lat2 * Real.sin (dlon / 2) ^ 2
  let c := 2 * atan2R (Real.sqrt a) (Real.sqrt (1 - a))
  (EARTH_RADIUS_METERS : ℝ) * c

/-- `calculate_distance` from `aerp/utils.py`: `None` anywhere, a
non-numeric argument, or an out-of-range coordinate yields
`float('inf')`; otherwise the Haversine distance.  (The `try/except`
around the arithmetic cannot fire in real-number semantics.) -/
noncomputable def calculate_distance (lat1 lon1 lat2 lon2 : Coord) : DistResult :=
  if lat1 = Coord.missing ∨ lon1 = Coord.missing ∨ lat2 = Coord.missing ∨
      lon2 = Coord.missing then
    DistResult.inf
  else
    match lat1, lon1, lat2, lon2 with
    | Coord.num a, Coord.num b, Coord.num c, Coord.num d =>
      if ¬(-90 ≤ a ∧ a ≤ 90 ∧ -90 ≤ c ∧ c ≤ 90 ∧
          -180 ≤ b ∧ b ≤ 180 ∧ -180 ≤ d ∧ d ≤ 180) then
        DistResult.inf
      else DistResult.fin (haversine a b c d)
    | _, _, _, _ => DistResult.inf

open scoped Classical in
/-- Boolean comparison `distance <= alert_radius` on reals (the values are
Python floats; classical decidability only, never evaluated). -/
noncomputable def realLeB (x y : ℝ) : Bool := if x ≤ y then true else false

/-- `AERP.check_alert_radius`, reduced to its decision: returns whether a
proximity alert is raised for a peer at `(lat, lon)`.  The radius comes
from the configuration; own position is `s.my_position` (the value the
source extracts from `interface.myInfo.position`, `none` when
unavailable, in which case the method returns without alerting). -/
noncomputable def check_alert_radius (s : AERPState) (lat lon : ℚ) : Bool :=
  if s.config.val.alert_radius ≤ 0 then false
  else
    match s.my_position with
    | none => false
    | some (my_lat, my_lon) =>
      match calculate_distance (Coord.num my_lat) (Coord.num my_lon)
          (Coord.num lat) (Coord.num lon) with
      | DistResult.inf => false
      | DistResult.fin d => realLeB d ((s.config.val.alert_radius : ℚ) : ℝ)

/-- C8: any missing, non-numeric or out-of-range coordinate makes
`calculate_distance` return infinite distance (and, being total, it raises
nothing); and whenever the distance `check_alert_radius` computes is
infinite, no proximity alert is raised. -/
theorem invalid_coords_infinite_no_alert
    (lat1 lon1 lat2 lon2 : Coord) (s : AERPState) (lat lon : ℚ)
    (hinv :
      lat1 = Coord.missing ∨ lon1 = Coord.missing ∨ lat2 = Coord.missing ∨
      lon2 = Coord.missing ∨
      lat1 = Coord.nonNumeric ∨ lon1 = Coord.nonNumeric ∨
      lat2 = Coord.nonNumeric ∨ lon2 = Coord.nonNumeric ∨
      (∃ q, lat1 = Coord.num q ∧ ¬(-90 ≤ q ∧ q ≤ 90)) ∨
      (∃ q, lat2 = Coord.num q ∧ ¬(-90 ≤ q ∧ q ≤ 90)) ∨
      (∃ q, lon1 = Coord.num q ∧ ¬(-180 ≤ q ∧ q ≤ 180)) ∨
      (∃ q, lon2 = Coord.num q ∧ ¬(-180 ≤ q ∧ q ≤ 180)))
    (halert : ∀ mlat mlon, s.my_position = some (mlat, mlon) →
      calculate_distance (Coord.num mlat) (Coord.num mlon)
        (Coord.num lat) (Coord.num lon) = DistResult.inf) :
    calculate_distance lat1 lon1 lat2 lon2 = DistResult.inf ∧
    check_alert_radius s lat lon = false := by
  constructor
  · rcases hinv with h|h|h|h|h|h|h|h|h|h|h|h
    · subst h
      simp [calculate_distance]
    · subst h
      simp [calculate_distance]
    · subst h
      simp [calculate_distance]
    · subst h
      simp [calculate_distance]
    · subst h
      unfold calculate_distance
      split
      · rfl
      · cases lon1 <;> cases lat2 <;> cases lon2 <;> rfl
    · subst h
      unfold calculate_distance
      split
      · rfl
      · cases lat1 <;> cases lat2 <;> cases lon2 <;> rfl
    · subst h
      unfold calculate_distance
      split
      · rfl
      · cases lat1 <;> cases lon1 <;> cases lon2 <;> rfl
    · subst h
      unfold calculate_distance
      split
      · rfl
      · cases lat1 <;> cases lon1 <;> cases lat2 <;> rfl
    · obtain ⟨q, rfl, hq⟩ := h
      unfold calculate_distance
      split
      · rfl
      · cases lon1 <;> cases lat2 <;> cases lon2 <;>
          first
          | rfl
          | exact if_pos (by tauto)
    · obtain ⟨q, rfl, hq⟩ := h
      unfold calculate_distance
      split
      · rfl
      · cases lat1 <;> cases lon1 <;> cases lon2 <;>
          first
          | rfl
          | exact if_pos (by tauto)
    · obtain ⟨q, rfl, hq⟩ := h
      unfold calculate_distance
      split
      · rfl
      · cases lat1 <;> cases lat2 <;> cases lon2 <;>
          first
          | rfl
          | exact if_pos (by tauto)
    · obtain ⟨q, rfl, hq⟩ := h
      unfold calculate_distance
      split
      · rfl
      · cases lat1 <;> cases lon1 <;> cases lat2 <;>
          first
          | rfl
          | exact if_pos (by tauto)
  · unfold check_alert_radius
    split
    · rfl
    · rcases hmp : s.my_position with _ | ⟨mlat, mlon⟩
      · simp [hmp]
      · simp [hmp, halert mlat mlon hmp]

/-- Witness for C8: a missing first latitude gives infinite distance, and
with own position (0,0) and an out-of-range peer latitude 200 the
computed distance is infinite, so no alert is raised. -/
theorem invalid_coords_infinite_no_alert_witness :
    (Coord.missing = Coord.missing ∨ Coord.num 0 = Coord.missing ∨
      Coord.num 0 = Coord.missing ∨ Coord.num 0 = Coord.missing ∨
      Coord.missing = Coord.nonNumeric ∨ Coord.num 0 = Coord.nonNumeric ∨
      Coord.num 0 = Coord.nonNumeric ∨ Coord.num 0 = Coord.nonNumeric ∨
      (∃ q, Coord.missing = Coord.num q ∧ ¬(-90 ≤ q ∧ q ≤ 90)) ∨
      (∃ q, Coord.num 0 = Coord.num q ∧ ¬(-90 ≤ q ∧ q ≤ 90)) ∨
      (∃ q, Coord.num 0 = Coord.num q ∧ ¬(-180 ≤ q ∧ q ≤ 180)) ∨
      (∃ q, Coord.num 0 = Coord.num q ∧ ¬(-180 ≤ q ∧ q ≤ 180))) ∧
    (∀ mlat mlon, sampleState.my_position = some (mlat, mlon) →
      calculate_distance (Coord.num mlat) (Coord.num mlon)
        (Coord.num 200) (Coord.num 5) = DistResult.inf) ∧
    (calculate_distance Coord.missing (Coord.num 0) (Coord.num 0) (Coord.num 0) =
        DistResult.inf ∧
      check_alert_radius sampleState 200 5 = false) := by
  have halert : ∀ mlat mlon, sampleState.my_position = some (mlat, mlon) →
      calculate_distance (Coord.num mlat) (Coord.num mlon)
        (Coord.num 200) (Coord.num 5) = DistResult.inf := by
    intro mlat mlon h
    have h2 : (((0 : ℚ), (0 : ℚ)) : ℚ × ℚ) = (mlat, mlon) := by
      simpa [sampleState] using h
    injection h2 with h3 h4
    subst h3
    subst h4
    norm_num [calculate_distance]
  exact ⟨Or.inl rfl, halert,
    invalid_coords_infinite_no_alert Coord.missing (Coord.num 0) (Coord.num 0)
      (Coord.num 0) sampleState 200 5 (Or.inl rfl) halert⟩

/-! Claims C6 and C10: the inbound router `AERP.handle_incoming` and the
location extraction `get_location_from_packet` (`aerp/utils.py`). -/

/-- `get_location_from_packet` from `aerp/utils.py`: for a packet on the
position port (`portNum == 1` or the string `'POSITION_APP'`) with a dict
payload, read `latitudeI`/`longitudeI` (scaled by 1e7) or, failing that,
`latitude`/`longitude`, returning them only when in range; an out-of-range
or non-dict position payload falls through (the source only logs) to the
embedded-`gps` check, which applies the same two-format, range-checked
extraction to a `gps` sub-dict of any payload. -/
def get_location_from_packet (pkt : Packet) : Option ℚ × Option ℚ :=
  match pkt.decoded with
  | none => (none, none)
  | some dec =>
    let posResult : Option (ℚ × ℚ) :=
      if dec.portNum = some (PortVal.int 1) ∨
          dec.portNum = some (PortVal.str "POSITION_APP") then
        match dec.payload with
        | some (Payload.dict m) =>
          match m.latitudeI, m.longitudeI with
          | some latI, some lonI =>
            let lat := (latI : ℚ) / 10000000
            let lon := (lonI : ℚ) / 10000000
            if -90 ≤ lat ∧ lat ≤ 90 ∧ -180 ≤ lon ∧ lon ≤ 180 then some (lat, lon)
            else none
          | _, _ =>
            match m.latitude, m.longitude with
            | some lat, some lon =>
              if -90 ≤ lat ∧ lat ≤ 90 ∧ -180 ≤ lon ∧ lon ≤ 180 then some (lat, lon)
              else none
            | _, _ => none
        | _ => none
      else none
    match posResult with
    | some (lat, lon) => (some lat, some lon)
    | none =>
      match dec.payload with
      | some (Payload.dict m) =>
        match m.gps with
        | some g =>
          match g.val.latitudeI, g.val.longitudeI with
          | some latI, some lonI =>
            let lat := (latI : ℚ) / 10000000
            let lon := (lonI : ℚ) / 10000000
            if -90 ≤ lat ∧ lat ≤ 90 ∧ -180 ≤ lon ∧ lon ≤ 180 then (some lat, some lon)
            else (none, none)
          | _, _ =>
            match g.val.latitude, g.val.longitude with
            | some lat, some lon =>
              if -90 ≤ lat ∧ lat ≤ 90 ∧ -180 ≤ lon ∧ lon ≤ 180 then (some lat, some lon)
              else (none, none)
            | _, _ => (none, none)
        | none => (none, none)
      | _ => (none, none)

/-- `AERP.handle_incoming`: validates the packet (`decoded` with a
`payload` key), discards packets whose `from` equals `my_node_num`
(Python `==`, under which an absent `from` equals an unresolved
`my_node_num`), decodes a bytes payload as JSON where possible, routes
AERP-port messages by their `type` to the three handlers, and finally
checks any packet for an embedded location to drive the proximity
alert.  Returns the final state together with the emitted effects. -/
noncomputable def handle_incoming (pkt : Packet) (now : ℚ) (s : AERPState) :
    AERPState × List Effect :=
  match pkt.decoded with
  | none => (s, [])
  | some dec =>
    match dec.payload with
    | none => (s, [])
    | some payload =>
      if pkt.fromNum = s.my_node_num then (s, [])
      else
        let decoded_payload : Option MsgDict :=
          match payload with
          | Payload.bytes j => j
          | Payload.dict m => some m
          | Payload.other => none
        let routed : AERPState × List Effect :=
          if dec.portNum = some (PortVal.int s.config.val.emergency_port) then
            match decoded_payload with
            | some m =>
              match m.msgType with
              | some t =>
                if t = MSG_TYPE_EMERGENCY then handle_emergency_message m pkt.fromNum now s
                else if t = MSG_TYPE_ACK then (handle_ack_message m pkt.fromNum now s, [])
                else if t = MSG_TYPE_CLEAR then (handle_clear_message m pkt.fromNum s, [])
                else (s, [])
              | none => (s, [])
            | none => (s, [])
          else (s, [])
        match get_location_from_packet pkt with
        | (some lat, some lon) =>
          (routed.1,
            routed.2 ++
              (if check_alert_radius routed.1 lat lon then
                [Effect.proximityAlert pkt.fromNum]
              else []))
        | _ => routed

/-- C6: a packet whose sender node number equals this node's own node
number is discarded by `handle_incoming` before any handler or the
proximity checker runs: the state is unchanged and no effect (no datagram,
no alert) is produced. -/
theorem handle_incoming_ignores_self (pkt : Packet) (now : ℚ) (s : AERPState)
    (n : ℤ) (hfrom : pkt.fromNum = some n) (hself : s.my_node_num = some n) :
    handle_incoming pkt now s = (s, []) := by
  have heq : pkt.fromNum = s.my_node_num := by rw [hfrom, hself]
  obtain ⟨pdec, pfrom, pto⟩ := pkt
  unfold handle_incoming
  rcases pdec with _ | dec
  · rfl
  · obtain ⟨dport, dpayload⟩ := dec
    rcases dpayload with _ | payload
    · rfl
    · simp only at heq
      simp [heq]

/-- C10: with self identity unresolved (`my_node_num` is `None`), a packet
that carries a decodable payload but no `from` field is treated as
self-authored — Python `None == None` — and dropped: no handler and no
proximity check runs, and the state is unchanged. -/
theorem handle_incoming_missing_from_unknown_self (pkt : Packet) (now : ℚ)
    (s : AERPState) (dec : DecodedPart) (hd : pkt.decoded = some dec)
    (hp : dec.payload.isSome = true) (hfrom : pkt.fromNum = none)
    (hself : s.my_node_num = none) :
    handle_incoming pkt now s = (s, []) := by
  obtain ⟨payload, hpl⟩ := Option.isSome_iff_exists.mp hp
  obtain ⟨pdec, pfrom, pto⟩ := pkt
  obtain ⟨dport, dpayload⟩ := dec
  have hd2 : pdec = some ⟨dport, dpayload⟩ := hd
  have hf2 : pfrom = none := hfrom
  have hpl2 : dpayload = some payload := hpl
  subst hd2
  subst hf2
  subst hpl2
  unfold handle_incoming
  simp [hself]

/-- Packet sent by node 1, the node's own number in `sampleState`. -/
def selfPacket : Packet :=
  { decoded := some { portNum := some (PortVal.int 256), payload := some (Payload.dict ackPayload) }
    fromNum := some 1
    toNum := none }

/-- Witness for C6 at a concrete self-authored packet. -/
theorem handle_incoming_ignores_self_witness :
    selfPacket.fromNum = some 1 ∧ sampleState.my_node_num = some 1 ∧
    handle_incoming selfPacket 100 sampleState = (sampleState, []) :=
  ⟨rfl, rfl, handle_incoming_ignores_self selfPacket 100 sampleState 1 rfl rfl⟩

/-- Decoded part of a packet lacking a `from` field. -/
def noFromDecoded : DecodedPart :=
  { portNum := some (PortVal.int 256), payload := some (Payload.dict ackPayload) }

/-- Packet with a decodable payload but no `from` field. -/
def noFromPacket : Packet :=
  { decoded := some noFromDecoded, fromNum := none, toNum := none }

/-- Sample state whose self identity has not been resolved. -/
def sampleStateUnknownSelf : AERPState := { sampleState with my_node_num := none }

/-- Witness for C10 at a concrete from-less packet and identity-less
state. -/
theorem handle_incoming_missing_from_unknown_self_witness :
    noFromPacket.decoded = some noFromDecoded ∧
    noFromDecoded.payload.isSome = true ∧
    noFromPacket.fromNum = none ∧
    sampleStateUnknownSelf.my_node_num = none ∧
    handle_incoming noFromPacket 100 sampleStateUnknownSelf =
      (sampleStateUnknownSelf, []) :=
  ⟨rfl, rfl, rfl, rfl,
   handle_incoming_missing_from_unknown_self noFromPacket 100
     sampleStateUnknownSelf noFromDecoded rfl rfl rfl rfl⟩

/-! Claim C7: the locking discipline over the Session Store.  The shared
fields named by the claim are the active flag, the active session id
(`last_emergency_id`), the Acknowledgement Table and the tracked-emergency
table.  For each operation the list below transcribes, in program order,
its accesses to those fields together with whether the access occurs
inside a `with self._emergency_lock` block in `aerp/plugin.py`.  Only
`start_emergency` (lines 130–159), `stop_emergency` (lines 177–186) and
the broadcast loop's flag/id checks (lines 281–282, 292–295, 394–397)
hold the lock; the three message handlers, the janitor sweep and
`get_status` access the same fields with no lock acquisition anywhere in
their bodies. -/

/-- A Session Store field named by the locking claim. -/
inductive SharedField
  | activeFlag
  | lastId
  | ackTable
  | trackedTable
deriving DecidableEq

/-- One access to a Session Store field: which field, whether it is a
write, and whether `self._emergency_lock` is held at that program
point. -/
structure StateAccess where
  field : SharedField
  isWrite : Bool
  lockHeld : Bool
deriving DecidableEq

/-- `start_emergency`: entire body inside `with self._emergency_lock`
(reads the flag l.131; writes id l.143, flag l.144, ack table l.146;
reads id l.147). -/
def start_emergency_accesses : List StateAccess :=
  [⟨.activeFlag, false, true⟩, ⟨.lastId, true, true⟩, ⟨.activeFlag, true, true⟩,
   ⟨.ackTable, true, true⟩, ⟨.lastId, false, true⟩]

/-- `stop_emergency`: state accesses inside `with self._emergency_lock`
(reads flag l.178; writes flag l.180; reads id l.181; writes id l.182). -/
def stop_emergency_accesses : List StateAccess :=
  [⟨.activeFlag, false, true⟩, ⟨.activeFlag, true, true⟩,
   ⟨.lastId, false, true⟩, ⟨.lastId, true, true⟩]

/-- `_send_emergency_broadcast_loop`: flag/id polls, each inside
`with self._emergency_lock` (ll.281–282, 292–295, 394–397). -/
def send_emergency_broadcast_loop_accesses : List StateAccess :=
  [⟨.lastId, false, true⟩, ⟨.activeFlag, false, true⟩, ⟨.lastId, false, true⟩,
   ⟨.activeFlag, false, true⟩, ⟨.lastId, false, true⟩]

/-- `_handle_emergency_message`: writes the tracked-emergency table
(l.511) with no lock acquisition in its body. -/
def handle_emergency_message_accesses : List StateAccess :=
  [⟨.trackedTable, true, false⟩]

/-- `_handle_ack_message`: membership test l.534, inner-dict read l.537
and write l.545 on the ack table, no lock acquisition in its body. -/
def handle_ack_message_accesses : List StateAccess :=
  [⟨.ackTable, false, false⟩, ⟨.ackTable, false, false⟩, ⟨.ackTable, true, false⟩]

/-- `_handle_clear_message`: membership test l.558, read l.560 and
`del` l.568 on the tracked-emergency table, no lock acquisition. -/
def handle_clear_message_accesses : List StateAccess :=
  [⟨.trackedTable, false, false⟩, ⟨.trackedTable, false, false⟩,
   ⟨.trackedTable, true, false⟩]

/-- `_background_cleanup` (one sweep): iterates and deletes on the ack
table (ll.729, 734, 742–743) and on the tracked-emergency table
(ll.754, 764–765), no lock acquisition anywhere in the thread body. -/
def background_cleanup_accesses : List StateAccess :=
  [⟨.ackTable, false, false⟩, ⟨.ackTable, false, false⟩,
   ⟨.ackTable, false, false⟩, ⟨.ackTable, true, false⟩,
   ⟨.trackedTable, false, false⟩, ⟨.trackedTable, false, false⟩,
   ⟨.trackedTable, true, false⟩]

/-- `get_status`: reads the id l.793, the ack table ll.796–799, the
tracked table l.804 and the flag l.816, no lock acquisition. -/
def get_status_accesses : List StateAccess :=
  [⟨.lastId, false, false⟩, ⟨.ackTable, false, false⟩, ⟨.ackTable, false, false⟩,
   ⟨.trackedTable, false, false⟩, ⟨.activeFlag, false, false⟩]

/-- All Session Store accesses of the operations named by the claim
(start, stop, the broadcast loop, the three handlers, the janitor sweep,
the status snapshot). -/
def sessionStoreAccessesByOperation : List (String × List StateAccess) :=
  [("start_emergency", start_emergency_accesses),
   ("stop_emergency", stop_emergency_accesses),
   ("_send_emergency_broadcast_loop", send_emergency_broadcast_loop_accesses),
   ("_handle_emergency_message", handle_emergency_message_accesses),
   ("_handle_ack_message", handle_ack_message_accesses),
   ("_handle_clear_message", handle_clear_message_accesses),
   ("_background_cleanup", background_cleanup_accesses),
   ("get_status", get_status_accesses)]

/-- The locking claim as stated: every Session Store access of every one
of those operations holds the mutual-exclusion lock. -/
def lockDisciplineHolds : Bool :=
  sessionStoreAccessesByOperation.all (fun p => p.2.all (fun a => a.lockHeld))

/-- C7 (claim fails on the code): the ack handler, the emergency and
clear handlers, the janitor sweep and the status snapshot all access
Session Store fields with `self._emergency_lock` not held, so the
discipline the claim asserts is violated, although start/stop (and the
broadcast loop) do hold the lock for their accesses. -/
theorem shared_state_accessed_without_lock :
    (handle_ack_message_accesses.all (fun a => a.lockHeld)) = false ∧
    (handle_emergency_message_accesses.all (fun a => a.lockHeld)) = false ∧
    (handle_clear_message_accesses.all (fun a => a.lockHeld)) = false ∧
    (background_cleanup_accesses.all (fun a => a.lockHeld)) = false ∧
    (get_status_accesses.all (fun a => a.lockHeld)) = false ∧
    lockDisciplineHolds = false ∧
    (start_emergency_accesses.all (fun a => a.lockHeld)) = true ∧
    (stop_emergency_accesses.all (fun a => a.lockHeld)) = true := by
  decide

/-! Claim C9: the status snapshot `AERP.get_status`.  The snapshot
structure below records, for each container placed into the returned
dict, whether the code allocates a fresh object (dict comprehensions and
literals — modelled with identifiers `freshBase`, `freshBase + 1`, …,
all beyond every live identifier) or stores a reference to an internal
object: `"config": self.config.config` stores the internal configuration
dict itself, and each formatted record's `"gps": info.get("gps")` stores
the gps dict held inside the internal tracked-emergency record. -/

/-- One formatted tracked-emergency record in the snapshot. -/
structure FormattedEmergency where
  emergency_id : Option String
  message : String
  gps : Option (PyRef GpsData)
  battery : Option ℤ
  received_at : String
  last_seen : String
deriving DecidableEq

/-- The dict returned by `get_status`. -/
structure StatusDict where
  my_node_id : String
  emergency_active : Bool
  last_emergency_id : Option String
  active_acknowledgements : PyRef (List (String × String))
  active_received_emergencies : PyRef (List (String × PyRef FormattedEmergency))
  config : PyRef ConfigData
deriving DecidableEq

/-- `AERP.get_status`.  `freshBase` is the first unused object
identifier; the comprehension dicts get fresh identifiers, while
`config` and the per-record `gps` values carry the internal objects
through unchanged. -/
def get_status (s : AERPState) (freshBase : ℕ) : StatusDict :=
  let current_active_id := s.last_emergency_id
  let formatted_acks : List (String × PyRef (List (String × String))) :=
    match current_active_id with
    | some cid =>
      if cid ≠ "" then
        match lookupD cid s.acknowledgements with
        | some nodes =>
          [(cid, ⟨freshBase, nodes.map (fun p => (format_node_id p.1, formatTimestamp p.2))⟩)]
        | none => []
      else []
    | none => []
  let formatted_received : List (String × PyRef FormattedEmergency) :=
    (s.active_emergency_info.enum).map (fun q =>
      (format_node_id q.2.1,
        ⟨freshBase + 2 + q.1,
         { emergency_id := q.2.2.message_id
           message := q.2.2.message
           gps := q.2.2.gps
           battery := q.2.2.battery
           received_at := formatTimestamp q.2.2.timestamp
           last_seen := formatTimestamp q.2.2.last_seen }⟩))
  { my_node_id := s.my_node_id
    emergency_active := s.emergency_active
    last_emergency_id := current_active_id
    active_acknowledgements :=
      match current_active_id with
      | some cid =>
        match lookupD cid formatted_acks with
        | some r => r
        | none => ⟨freshBase + 1, []⟩
      | none => ⟨freshBase + 1, []⟩
    active_received_emergencies :=
      ⟨freshBase + 2 + s.active_emergency_info.length, formatted_received⟩
    config := s.config }

/-- An in-place mutation of the object with identifier `r`, as a write
through a reference obtained from the snapshot would perform it. -/
def writeThroughRef {α : Type} (r : ℕ) (v : α) (c : PyRef α) : PyRef α :=
  if c.ref = r then ⟨c.ref, v⟩ else c

/-- A gps dict stored inside a tracked-emergency record (object id 3). -/
def sampleGpsRef : PyRef GpsData :=
  ⟨3, { latitudeI := some 450000000, longitudeI := some 90000000,
        latitude := none, longitude := none, altitude := none, gpsTime := none }⟩

/-- Sample state whose tracked record for node 9 holds a gps dict. -/
def sampleStateWithGps : AERPState :=
  { sampleState with
    active_emergency_info := [(some 9, { sampleInfo with gps := some sampleGpsRef })] }

/-- A different configuration value (alert radius zeroed). -/
def altConfig : ConfigData := { sampleConfig with alert_radius := 0 }

/-- C9 (claim fails on the code): the snapshot returned by `get_status`
holds the internal configuration dict itself (same object identifier, not
a copy), and the gps dict inside a formatted record is the very object
stored in the internal tracked-emergency table; consequently a write
through the snapshot's config reference changes the internal
configuration object. -/
theorem get_status_exposes_internal_config :
    (get_status sampleStateWithGps 100).config = sampleStateWithGps.config ∧
    (get_status sampleStateWithGps 100).config.ref = sampleStateWithGps.config.ref ∧
    ((get_status sampleStateWithGps 100).active_received_emergencies.val.map
        (fun p => p.2.val.gps)) = [some sampleGpsRef] ∧
    writeThroughRef (get_status sampleStateWithGps 100).config.ref altConfig
        sampleStateWithGps.config = ⟨0, altConfig⟩ ∧
    altConfig ≠ sampleConfig := by
  refine ⟨rfl, rfl, rfl, rfl, ?_⟩
  decide
